import Mathlib

/-!
# Verification of the portfolio site's interactivity layer

Shallow embedding of the scroll/visibility coordinator (`AnimationManager`),
the scroll-progress bar (`PerformanceManager`), the theme store
(`ThemeManager`) and the contact-form manager (`FormManager`), together with
proofs of the spec's testable properties.

Pixel quantities (scroll offsets, viewport heights, element coordinates,
parallax speeds) are modelled as rationals; DOM class lists as lists of
strings; the durable key-value store as an `Option String` (the value under
the single theme key, `none` when absent).
-/

namespace Portfolio

/-! ## AnimationManager: fade-in elements and `checkForNewAnimations` -/

/-- A DOM element tagged `fade-in`, as the scroll handler sees it: its
absolute vertical position in the document (so that
`getBoundingClientRect().top = absTop - scrollY`) and its class list. -/
structure FadeElement where
  absTop : ℚ
  classes : List String
  deriving Repr, DecidableEq

/-- `element.classList.contains c`. -/
def hasClass (e : FadeElement) (c : String) : Bool :=
  e.classes.contains c

/-- `element.classList.add c`: appends the class unless already present. -/
def classAdd (cs : List String) (c : String) : List String :=
  if cs.contains c then cs else cs ++ [c]

/-- The body of `checkForNewAnimations` for one element, at scroll offset
`y` and viewport height `innerH`: if the element does not yet have the
`visible` class and its bounding-box top (`absTop - y`) is above 80% of the
viewport height, the `visible` class is added; otherwise the element is
untouched. -/
def checkElem (y innerH : ℚ) (e : FadeElement) : FadeElement :=
  if hasClass e "visible" then e
  else if e.absTop - y < innerH * (4/5) then
    { e with classes := classAdd e.classes "visible" }
  else e

/-- `AnimationManager.checkForNewAnimations`: one pass over all fade-in
elements at scroll offset `y`. -/
def checkForNewAnimations (y innerH : ℚ) (els : List FadeElement) :
    List FadeElement :=
  els.map (checkElem y innerH)

/-- A whole sequence of scroll events, each running
`checkForNewAnimations`, acting on a single element. -/
def runScrolls (innerH : ℚ) (ys : List ℚ) (e : FadeElement) : FadeElement :=
  ys.foldl (fun acc y => checkElem y innerH acc) e

/-! ## AnimationManager: parallax (`updateParallax`, `setupFloatingElements`) -/

/-- Digit run at the front of a character list, with the rest. -/
def takeDigits (l : List Char) : List Char × List Char :=
  (l.takeWhile Char.isDigit, l.dropWhile Char.isDigit)

/-- Value of a digit string. -/
def digitsToNat (l : List Char) : Nat :=
  l.foldl (fun a c => a * 10 + (c.toNat - 48)) 0

/-- JavaScript `parseFloat` restricted to the plain decimal forms a
`data-speed` attribute can take (optional sign, integer part, optional
fractional part; no exponent). `none` models the `NaN` result on a string
with no numeric prefix. -/
def parseFloat (s : String) : Option ℚ :=
  let (neg, l) :=
    match s.toList with
    | '-' :: t => (true, t)
    | '+' :: t => (false, t)
    | t => (false, t)
  let (ip, r) := takeDigits l
  match r with
  | '.' :: r2 =>
      let (fp, _) := takeDigits r2
      if ip.isEmpty && fp.isEmpty then none
      else
        let v : ℚ := (digitsToNat ip : ℚ) + (digitsToNat fp : ℚ) / (10 ^ fp.length)
        some (if neg then -v else v)
  | _ =>
      if ip.isEmpty then none
      else some (if neg then -(digitsToNat ip : ℚ) else (digitsToNat ip : ℚ))

/-- The speed `updateParallax` actually uses:
`parseFloat(element.dataset.speed) || 0.1`. `parseFloat` of an absent
attribute (`undefined`) is `NaN`; both `NaN` and `0` are falsy, so they are
replaced by the default `0.1`. -/
def effSpeed (dataSpeed : Option String) : ℚ :=
  match dataSpeed with
  | none => 1/10
  | some s =>
      match parseFloat s with
      | none => 1/10
      | some q => if q = 0 then 1/10 else q

/-- A decorative `floating-element`: its `data-speed` attribute (absent or a
string) and its current inline transform, modelled as the
(`translateY` px, `rotate` deg) pair, `none` before any parallax update. -/
structure FloatingElement where
  dataSpeed : Option String
  transform : Option (ℚ × ℚ)
  deriving Repr, DecidableEq

/-- The body of `updateParallax` for one element at scroll offset `y`:
`translateY(scrolled * speed) rotate(scrolled * 0.1)`. -/
def updateParallaxElem (y : ℚ) (e : FloatingElement) : FloatingElement :=
  { e with transform := some (y * effSpeed e.dataSpeed, y * (1/10)) }

/-- `AnimationManager.updateParallax`: one pass over all floating
elements. -/
def updateParallax (y : ℚ) (els : List FloatingElement) :
    List FloatingElement :=
  els.map (updateParallaxElem y)

/-! ## PerformanceManager: scroll progress bar -/

/-- `PerformanceManager.updateProgressBar`: the percentage written to the
progress bar's width at scroll offset `y`, document height `docH`
(`document.body.scrollHeight`) and viewport height `innerH`:
`scrollTop / (scrollHeight - innerHeight) * 100`, with no clamping. -/
def updateProgressBar (y docH innerH : ℚ) : ℚ :=
  y / (docH - innerH) * 100

/-- Decimal digits of `n`, most significant first (`fuel`-bounded so the
kernel can evaluate it; `fuel ≥ n` suffices). -/
def natToCharsAux : Nat → Nat → List Char
  | 0, _ => []
  | fuel + 1, n =>
      if n = 0 then []
      else natToCharsAux fuel (n / 10) ++ [Char.ofNat (48 + n % 10)]

/-- Decimal rendering of a natural number. -/
def natRender (n : Nat) : String :=
  if n = 0 then "0" else ⟨natToCharsAux (n + 1) n⟩

/-- Decimal rendering of an integer, as JavaScript prints an integral
number inside a template string. -/
def intRender : ℤ → String
  | .ofNat n => natRender n
  | .negSucc n => "-" ++ natRender (n + 1)

/-- The width string `` `${scrollPercent}%` `` assigned to the bar's style,
for the scroll positions where the percentage is an integer (there
JavaScript's number-to-string is the plain decimal rendering); `none` when
the percentage is not an integer. -/
def progressBarWidth (y docH innerH : ℚ) : Option String :=
  let p := updateProgressBar y docH innerH
  if p.den = 1 then some (intRender p.num ++ "%") else none

/-! ## ThemeManager -/

/-- The six CSS custom properties `applyTheme` writes on the document
root. -/
structure Palette where
  primary : String
  secondary : String
  tertiary : String
  white : String
  gray : String
  lightGray : String
  deriving Repr, DecidableEq

/-- The dark-theme palette of `applyTheme`. -/
def darkPalette : Palette :=
  ⟨"#0A0A0A", "#1A1A1A", "#2A2A2A", "#FFFFFF", "#666666", "#999999"⟩

/-- The light-theme palette of `applyTheme`. -/
def lightPalette : Palette :=
  ⟨"#FFFFFF", "#F5F5F5", "#E0E0E0", "#0A0A0A", "#666666", "#333333"⟩

/-- The state a `ThemeManager` instance owns or touches: the `isDarkTheme`
flag, the inline CSS variables on the document root (`none` before any
`applyTheme` call), and the durable store's value under the
`portfolio-theme` key (`none` when the key is absent). -/
structure ThemeState where
  isDarkTheme : Bool
  rootPalette : Option Palette
  storage : Option String
  deriving Repr, DecidableEq

/-- The constructor sets `isDarkTheme = true`; on a fresh page no inline
variables are set and the store may hold anything, so the canonical initial
state has both `none`. -/
def initialThemeState : ThemeState :=
  { isDarkTheme := true, rootPalette := none, storage := none }

/-- `ThemeManager.applyTheme`: writes the palette selected by
`isDarkTheme` onto the document root. -/
def applyTheme (st : ThemeState) : ThemeState :=
  { st with
    rootPalette := some (if st.isDarkTheme then darkPalette else lightPalette) }

/-- `ThemeManager.saveThemePreference`:
`localStorage.setItem('portfolio-theme', isDarkTheme ? 'dark' : 'light')`. -/
def saveThemePreference (st : ThemeState) : ThemeState :=
  { st with storage := some (if st.isDarkTheme then "dark" else "light") }

/-- `ThemeManager.toggleTheme`: flips the flag, applies the palette,
persists the preference. -/
def toggleTheme (st : ThemeState) : ThemeState :=
  saveThemePreference (applyTheme { st with isDarkTheme := !st.isDarkTheme })

/-- `ThemeManager.loadThemePreference`: reads the stored value; when it is
truthy (present and non-empty) sets `isDarkTheme` to whether it equals
`"dark"` and applies the palette; otherwise leaves the state alone. -/
def loadThemePreference (st : ThemeState) : ThemeState :=
  match st.storage with
  | none => st
  | some s =>
      if s.isEmpty then st
      else applyTheme { st with isDarkTheme := s == "dark" }

/-- The state after the constructor and `loadThemePreference` have run
against a store holding `stored` under the theme key. -/
def loadedState (stored : Option String) : ThemeState :=
  loadThemePreference { initialThemeState with storage := stored }

/-- `ThemeManager.setTheme`: accepts exactly `"dark"` or `"light"`, then
sets the flag, applies the palette and persists; otherwise does nothing. -/
def setTheme (theme : String) (st : ThemeState) : ThemeState :=
  if theme == "dark" || theme == "light" then
    saveThemePreference (applyTheme { st with isDarkTheme := theme == "dark" })
  else st

/-! ## FormManager -/

/-- All ways to split a character list into a prefix and a suffix. -/
def splits : List Char → List (List Char × List Char)
  | [] => [([], [])]
  | c :: cs => ([], c :: cs) :: (splits cs).map (fun p => (c :: p.1, p.2))

/-- A nonempty run of characters matching the class `[^\s@]` (neither
whitespace nor `@`), i.e. the regex piece `[^\s@]+`. -/
def plainPart (l : List Char) : Bool :=
  !l.isEmpty && l.all (fun c => !(c.isWhitespace || c == '@'))

/-- `emailRegex.test value` for
`emailRegex = /^[^\s@]+@[^\s@]+\.[^\s@]+$/`: the whole string decomposes as
`[^\s@]+ '@' [^\s@]+ '.' [^\s@]+`. -/
def emailRegexTest (s : String) : Bool :=
  (splits s.toList).any fun p =>
    match p.2 with
    | '@' :: rest =>
        plainPart p.1 &&
          ((splits rest).any fun q =>
            match q.2 with
            | '.' :: c => plainPart q.1 && plainPart c
            | _ => false)
    | _ => false

/-- JavaScript `String.prototype.trim`: strips leading and trailing
whitespace. -/
def jsTrim (s : String) : String :=
  ⟨(((s.toList.dropWhile Char.isWhitespace).reverse.dropWhile
      Char.isWhitespace).reverse)⟩

/-- `FormManager.validateInput` on an input with value `value`, `type`
attribute `ty` and `required` flag: trims the value, rejects an empty
required field, then for a non-empty email field applies the email
regex. The result is whether validation passes (error display is a side
effect not modelled here). -/
def validateInput (value ty : String) (required : Bool) : Bool :=
  let v := jsTrim value
  if required && v.toList.isEmpty then false
  else if ty == "email" && !v.toList.isEmpty then emailRegexTest v
  else true

/-- The submission-related state of a `FormManager`: the `isSubmitting`
guard flag and the number of simulated submissions currently in flight
(started and not yet finished). -/
structure FormSubState where
  isSubmitting : Bool
  inFlight : Nat
  deriving Repr, DecidableEq

/-- Constructor state: not submitting, nothing in flight. -/
def initialFormState : FormSubState :=
  { isSubmitting := false, inFlight := 0 }

/-- The synchronous prefix of `FormManager.handleFormSubmission`, invoked
with the result `valid` that `validateForm()` would return: an invocation
while `isSubmitting` returns at once, an invalid form returns before the
flag is set, and otherwise the flag is set and a simulated submission
starts (`await this.submitForm()` suspends here). -/
def handleFormSubmission (valid : Bool) (st : FormSubState) : FormSubState :=
  if st.isSubmitting then st
  else if !valid then st
  else { isSubmitting := true, inFlight := st.inFlight + 1 }

/-- The `finally` continuation of an in-flight `handleFormSubmission`:
clears the flag and finishes the in-flight submission. It can only run
while a submission is in flight (the flag is set). -/
def completeSubmission (st : FormSubState) : FormSubState :=
  if st.isSubmitting then
    { isSubmitting := false, inFlight := st.inFlight - 1 }
  else st

/-- An event on the form's event loop: a submit attempt (whose form
validates to `valid`) or the completion of the pending simulated
submission. -/
inductive FormEvent where
  | submitAttempt (valid : Bool)
  | submitComplete
  deriving Repr, DecidableEq

/-- One step of the form's event loop. -/
def formStep (st : FormSubState) (e : FormEvent) : FormSubState :=
  match e with
  | .submitAttempt v => handleFormSubmission v st
  | .submitComplete => completeSubmission st

/-- Run a whole event sequence from the constructor state. -/
def runForm (es : List FormEvent) : FormSubState :=
  es.foldl formStep initialFormState

/-- `FormManager.submitForm`: `new Promise((resolve) => setTimeout(resolve,
1500))` — it always resolves (with no value) after the fixed delay and has
no reject path, so as a fallible computation it is always `ok`. -/
def submitForm : Except String Unit :=
  .ok ()

/-- How one non-skipped run of `handleFormSubmission` can end. -/
inductive SubmissionOutcome where
  | success
  | failure
  | skippedBusy
  | skippedInvalid
  deriving Repr, DecidableEq

/-- The outcome of one `handleFormSubmission` invocation: skipped while
`isSubmitting`, skipped when validation fails, otherwise the `try` branch
runs `submitForm` — `ok` reaches `showSuccessMessage`, `error` would reach
the `catch` branch's failure notification. -/
def handleFormSubmissionOutcome (isSubmitting valid : Bool) : SubmissionOutcome :=
  if isSubmitting then .skippedBusy
  else if !valid then .skippedInvalid
  else
    match submitForm with
    | .ok _ => .success
    | .error _ => .failure

/-- Invariant of the form's submission state: the number of in-flight
simulated submissions is one exactly while the guard flag is set, zero
otherwise. -/
def formInv (st : FormSubState) : Prop :=
  st.inFlight = if st.isSubmitting then 1 else 0

/-! ## Helper lemmas -/

theorem checkElem_visible (y innerH : ℚ) (e : FadeElement)
    (hv : hasClass e "visible" = true) : checkElem y innerH e = e := by
  simp [checkElem, hv]

theorem runScrolls_visible (innerH : ℚ) (ys : List ℚ) (e : FadeElement)
    (hv : hasClass e "visible" = true) : runScrolls innerH ys e = e := by
  induction ys with
  | nil => rfl
  | cons y ys ih =>
      simp only [runScrolls, List.foldl_cons, checkElem_visible y innerH e hv]
      exact ih

theorem checkElem_preserves_class (y innerH : ℚ) (e : FadeElement) (c : String)
    (hc : hasClass e c = true) : hasClass (checkElem y innerH e) c = true := by
  unfold checkElem
  by_cases h1 : hasClass e "visible" = true
  · simp [h1, hc]
  · simp only [Bool.not_eq_true] at h1
    simp only [h1, Bool.false_eq_true, if_false]
    by_cases h2 : e.absTop - y < innerH * (4/5)
    · simp only [h2, if_true]
      simp only [hasClass, classAdd] at *
      rw [if_neg]
      · have hmem : c ∈ e.classes := by simpa using hc
        simp [hmem]
      · simpa using h1
    · simp [h2, hc]

theorem loadTheme_dark_iff (stored : Option String) :
    (loadedState stored).isDarkTheme = true ↔
      stored = none ∨ stored = some "" ∨ stored = some "dark" := by
  match stored with
  | none => simp [loadedState, loadThemePreference, initialThemeState]
  | some s =>
      simp only [loadedState, loadThemePreference]
      by_cases he : s.isEmpty
      · have hs : s = "" := (String.isEmpty_iff s).mp he
        subst hs
        simp [initialThemeState, String.isEmpty_iff]
      · rw [if_neg he]
        have hne : s ≠ "" := fun h => he ((String.isEmpty_iff s).mpr h)
        simp [applyTheme, initialThemeState, hne]

theorem toggle_toggle_id (st : ThemeState)
    (hp : st.rootPalette = some (if st.isDarkTheme then darkPalette else lightPalette))
    (hs : st.storage = some (if st.isDarkTheme then "dark" else "light")) :
    toggleTheme (toggleTheme st) = st := by
  cases st with
  | mk b rp sg =>
      simp only at hp hs
      rw [hp, hs]
      cases b <;> simp [toggleTheme, applyTheme, saveThemePreference]

theorem toggle_toggle_flag (st : ThemeState) :
    (toggleTheme (toggleTheme st)).isDarkTheme = st.isDarkTheme := by
  cases st with
  | mk b rp sg => cases b <;> simp [toggleTheme, applyTheme, saveThemePreference]

theorem setTheme_frame (theme : String) (st : ThemeState)
    (hd : theme ≠ "dark") (hl : theme ≠ "light") : setTheme theme st = st := by
  simp [setTheme, hd, hl]

theorem setTheme_dark (st : ThemeState) :
    setTheme "dark" st = ⟨true, some darkPalette, some "dark"⟩ := by
  cases st with
  | mk b rp sg => simp [setTheme, applyTheme, saveThemePreference]

theorem setTheme_light (st : ThemeState) :
    setTheme "light" st = ⟨false, some lightPalette, some "light"⟩ := by
  cases st with
  | mk b rp sg => simp [setTheme, applyTheme, saveThemePreference]

theorem toList_eq_nil_iff (s : String) : s.toList = [] ↔ s = "" := by
  cases s with
  | mk data =>
      constructor
      · intro h
        simp only [String.toList] at h
        simp [h]
      · intro h
        rw [h]
        rfl

theorem validateInput_required_empty (value ty : String) (required : Bool)
    (hreq : required = true) (hempty : jsTrim value = "") :
    validateInput value ty required = false := by
  simp only [validateInput, hreq, hempty]
  rfl

theorem validateInput_email_iff (value : String) (required : Bool)
    (hne : jsTrim value ≠ "") :
    (validateInput value "email" required = true ↔
      emailRegexTest (jsTrim value) = true) := by
  have h1 : (jsTrim value).data ≠ [] := fun h => hne ((toList_eq_nil_iff _).mp h)
  simp [validateInput, h1]

theorem formStep_inv (st : FormSubState) (e : FormEvent) (h : formInv st) :
    formInv (formStep st e) := by
  cases e with
  | submitAttempt v =>
      simp only [formStep, handleFormSubmission]
      by_cases hb : st.isSubmitting = true
      · simpa [hb] using h
      · simp only [Bool.not_eq_true] at hb
        simp only [formInv, hb, if_false] at h
        cases v with
        | false => simpa [formInv, hb] using h
        | true => simp [formInv, hb, h]
  | submitComplete =>
      simp only [formStep, completeSubmission]
      by_cases hb : st.isSubmitting = true
      · simp only [formInv, hb, if_true] at h
        simp [formInv, hb, h]
      · simp only [Bool.not_eq_true] at hb
        simpa [formInv, hb] using h

theorem foldl_formStep_inv (es : List FormEvent) (st : FormSubState)
    (h : formInv st) : formInv (es.foldl formStep st) := by
  induction es generalizing st with
  | nil => exact h
  | cons e es ih => exact ih (formStep st e) (formStep_inv st e h)

theorem runForm_inFlight_le_one (es : List FormEvent) :
    (runForm es).inFlight ≤ 1 := by
  have h := foldl_formStep_inv es initialFormState rfl
  unfold formInv at h
  rw [runForm, h]
  split <;> omega

/-! ## Claim theorems -/

/-- Claim C1: the `visible` flag of a fade-in element is monotone under
`checkForNewAnimations`. A scroll step on an already-visible element is a
no-op (the element, its class list included, is unchanged), so no sequence
of later scroll events ever removes the `visible` class; moreover a step
never removes any class from any element, and the element set is preserved
(the pass maps the list, keeping its length). -/
theorem fadeIn_visible_monotone (innerH y : ℚ) (ys : List ℚ) (e : FadeElement)
    (hv : hasClass e "visible" = true) :
    checkElem y innerH e = e ∧
    runScrolls innerH ys e = e ∧
    (∀ (e2 : FadeElement) (c : String), hasClass e2 c = true →
      hasClass (checkElem y innerH e2) c = true) ∧
    (∀ els : List FadeElement,
      (checkForNewAnimations y innerH els).length = els.length) := by
  refine ⟨checkElem_visible y innerH e hv, runScrolls_visible innerH ys e hv,
    checkElem_preserves_class y innerH, ?_⟩
  intro els
  simp [checkForNewAnimations]

/-- Witness for C1 at a concrete visible element and scroll trace. -/
theorem fadeIn_visible_monotone_witness :
    hasClass ⟨0, ["fade-in", "visible"]⟩ "visible" = true ∧
    checkElem 5 900 ⟨0, ["fade-in", "visible"]⟩ = ⟨0, ["fade-in", "visible"]⟩ ∧
    runScrolls 900 [5, 250, 1000] ⟨0, ["fade-in", "visible"]⟩ =
      ⟨0, ["fade-in", "visible"]⟩ :=
  ⟨by decide,
   (fadeIn_visible_monotone 900 5 [5, 250, 1000] ⟨0, ["fade-in", "visible"]⟩
      (by decide)).1,
   (fadeIn_visible_monotone 900 5 [5, 250, 1000] ⟨0, ["fade-in", "visible"]⟩
      (by decide)).2.1⟩

/-- Claim C2: for a floating element whose effective configured speed is
`s`, `updateParallax` writes the transform `translateY(y * s)` px with
`rotate(y * 0.1)` deg at scroll offset `y`; the transform depends only on
`(y, s)` — two elements with the same speed get identical transforms
regardless of their other state — and the pass touches every element of
the list. -/
theorem updateParallax_pure (y s : ℚ) (e : FloatingElement)
    (hs : effSpeed e.dataSpeed = s) :
    (updateParallaxElem y e).transform = some (y * s, y * (1/10)) ∧
    (∀ e2 : FloatingElement, effSpeed e2.dataSpeed = effSpeed e.dataSpeed →
      (updateParallaxElem y e2).transform = (updateParallaxElem y e).transform) ∧
    (∀ els : List FloatingElement,
      updateParallax y els = els.map (updateParallaxElem y)) := by
  refine ⟨by simp [updateParallaxElem, hs], ?_, fun els => rfl⟩
  intro e2 h2
  simp [updateParallaxElem, h2]

/-- Witness for C2: an element with no `data-speed` attribute has default
speed `0.1`, and at scroll offset `7` gets transform
`translateY(7 * 0.1) rotate(7 * 0.1)`. -/
theorem updateParallax_pure_witness :
    effSpeed (none : Option String) = 1/10 ∧
    (updateParallaxElem 7 ⟨none, none⟩).transform =
      some (7 * (1/10), 7 * (1/10)) :=
  ⟨rfl, (updateParallax_pure 7 (1/10) ⟨none, none⟩ rfl).1⟩

/-- Claim C3: `updateProgressBar` writes `y / (docH - innerH) * 100`
percent with no clamping: on a page of height 2000 with viewport 1000,
scroll 0 yields width `"0%"` and scroll 500 yields `"50%"`, while scroll
1500 yields 150, a value outside `[0, 100]`. -/
theorem updateProgressBar_spec :
    (∀ y docH innerH : ℚ,
      updateProgressBar y docH innerH = y / (docH - innerH) * 100) ∧
    updateProgressBar 0 2000 1000 = 0 ∧
    updateProgressBar 500 2000 1000 = 50 ∧
    progressBarWidth 0 2000 1000 = some "0%" ∧
    progressBarWidth 500 2000 1000 = some "50%" ∧
    updateProgressBar 1500 2000 1000 = 150 := by
  refine ⟨fun y docH innerH => rfl, by norm_num [updateProgressBar], by
    norm_num [updateProgressBar], ?_, ?_, by norm_num [updateProgressBar]⟩
  · have h : updateProgressBar 0 2000 1000 = 0 := by norm_num [updateProgressBar]
    simp [progressBarWidth, h]
    decide
  · have h : updateProgressBar 500 2000 1000 = 50 := by
      norm_num [updateProgressBar]
    simp [progressBarWidth, h, Rat.den_ofNat, Rat.num_ofNat]
    decide

/-- Counterexample to claim C4 as stated: the store holding `"banana"` — a
string other than `"light"` — does not leave the default dark theme;
`loadThemePreference` sets `isDarkTheme` to `savedTheme === 'dark'`, which
is false. -/
theorem loadTheme_claim_counterexample :
    ("banana" : String) ≠ "light" ∧
      (loadedState (some "banana")).isDarkTheme = false := by
  decide

/-- Claim C4, amended: after `loadThemePreference`, the theme is dark
exactly when the store holds no value, the empty string (both falsy, so
the constructor default `isDarkTheme = true` survives), or exactly
`"dark"`; any other non-empty stored string — not only `"light"` — yields
the light theme. -/
theorem loadTheme_dark_iff_amended :
    (∀ stored : Option String, (loadedState stored).isDarkTheme = true ↔
      stored = none ∨ stored = some "" ∨ stored = some "dark") ∧
    initialThemeState.isDarkTheme = true ∧
    (loadedState (some "light")).isDarkTheme = false := by
  refine ⟨loadTheme_dark_iff, rfl, by decide⟩

/-- Counterexample to claim C5 as stated: from the fresh initial state (no
palette applied, nothing persisted) two toggles do not restore the state —
they leave the dark palette applied and `"dark"` persisted where nothing
was before. -/
theorem toggleTheme_twice_counterexample :
    toggleTheme (toggleTheme initialThemeState) ≠ initialThemeState := by
  decide

/-- Claim C5, amended: two toggles always restore the `isDarkTheme` flag;
they restore the whole state — applied palette and persisted string
included — whenever the starting state's palette and persisted value
already agree with its flag (as in every state produced by `toggleTheme`
or `setTheme` itself). -/
theorem toggleTheme_involution_amended (st : ThemeState)
    (hp : st.rootPalette =
      some (if st.isDarkTheme then darkPalette else lightPalette))
    (hs : st.storage = some (if st.isDarkTheme then "dark" else "light")) :
    toggleTheme (toggleTheme st) = st ∧
    (∀ st2 : ThemeState,
      (toggleTheme (toggleTheme st2)).isDarkTheme = st2.isDarkTheme) :=
  ⟨toggle_toggle_id st hp hs, toggle_toggle_flag⟩

/-- Witness for C5 at the consistent dark state. -/
theorem toggleTheme_involution_amended_witness :
    (⟨true, some darkPalette, some "dark"⟩ : ThemeState).rootPalette =
      some (if (⟨true, some darkPalette, some "dark"⟩ : ThemeState).isDarkTheme
        then darkPalette else lightPalette) ∧
    toggleTheme (toggleTheme ⟨true, some darkPalette, some "dark"⟩) =
      ⟨true, some darkPalette, some "dark"⟩ :=
  ⟨rfl,
   (toggleTheme_involution_amended ⟨true, some darkPalette, some "dark"⟩
      rfl rfl).1⟩

/-- Claim C6: `setTheme` on any string other than `"dark"` and `"light"`
leaves the whole theme state — flag, applied palette and persisted value —
untouched; on exactly `"dark"` or `"light"` it sets, applies and persists
that theme. -/
theorem setTheme_frame_spec (theme : String) (st : ThemeState)
    (hd : theme ≠ "dark") (hl : theme ≠ "light") :
    setTheme theme st = st ∧
    (∀ st2 : ThemeState,
      setTheme "dark" st2 = ⟨true, some darkPalette, some "dark"⟩) ∧
    (∀ st2 : ThemeState,
      setTheme "light" st2 = ⟨false, some lightPalette, some "light"⟩) :=
  ⟨setTheme_frame theme st hd hl, setTheme_dark, setTheme_light⟩

/-- Witness for C6 at the unrecognized input `"banana"`. -/
theorem setTheme_frame_spec_witness :
    ("banana" : String) ≠ "dark" ∧ ("banana" : String) ≠ "light" ∧
    setTheme "banana" initialThemeState = initialThemeState :=
  ⟨by decide, by decide,
   (setTheme_frame_spec "banana" initialThemeState (by decide) (by decide)).1⟩

/-- Claim C7: `validateInput` rejects a required field that is empty after
trimming; a non-empty email field passes exactly when the trimmed value
matches `^[^\s@]+@[^\s@]+\.[^\s@]+$`; concretely `"a@b.co"` passes while
`"a@b"` fails and the empty required field fails. -/
theorem validateInput_spec :
    (∀ (value ty : String) (required : Bool), required = true →
      jsTrim value = "" → validateInput value ty required = false) ∧
    (∀ (value : String) (required : Bool), jsTrim value ≠ "" →
      (validateInput value "email" required = true ↔
        emailRegexTest (jsTrim value) = true)) ∧
    validateInput "a@b.co" "email" true = true ∧
    validateInput "a@b" "email" true = false ∧
    validateInput "" "email" true = false :=
  ⟨validateInput_required_empty, validateInput_email_iff,
   by decide, by decide, by decide⟩

/-- Witness for C7: a whitespace-only required field is rejected, and a
padded address is judged by the regex on its trimmed form. -/
theorem validateInput_spec_witness :
    (true : Bool) = true ∧ jsTrim "   " = "" ∧
    validateInput "   " "text" true = false ∧
    jsTrim " a@b.co " ≠ "" ∧
    (validateInput " a@b.co " "email" false = true ↔
      emailRegexTest (jsTrim " a@b.co ") = true) :=
  ⟨rfl, by decide, validateInput_spec.1 "   " "text" true rfl (by decide),
   by decide, validateInput_spec.2.1 " a@b.co " false (by decide)⟩

/-- Claim C8: an invocation of `handleFormSubmission` while `isSubmitting`
is set returns the state unchanged — independent of what validation would
say — and along every event sequence at most one simulated submission is
ever in flight. -/
theorem form_submission_guard (st : FormSubState) (v : Bool)
    (hbusy : st.isSubmitting = true) :
    handleFormSubmission v st = st ∧
    (∀ v2 : Bool, handleFormSubmission v2 st = handleFormSubmission v st) ∧
    (∀ es : List FormEvent, (runForm es).inFlight ≤ 1) := by
  refine ⟨by simp [handleFormSubmission, hbusy], ?_, runForm_inFlight_le_one⟩
  intro v2
  simp [handleFormSubmission, hbusy]

/-- Witness for C8: a second submit while one is in flight is a no-op, and
a double-submit trace keeps at most one submission in flight. -/
theorem form_submission_guard_witness :
    (⟨true, 1⟩ : FormSubState).isSubmitting = true ∧
    handleFormSubmission true ⟨true, 1⟩ = ⟨true, 1⟩ ∧
    (runForm [.submitAttempt true, .submitAttempt true]).inFlight ≤ 1 :=
  ⟨rfl, (form_submission_guard ⟨true, 1⟩ true rfl).1,
   (form_submission_guard ⟨true, 1⟩ true rfl).2.2
     [.submitAttempt true, .submitAttempt true]⟩

/-- Claim C9: the simulated `submitForm` always resolves, so no invocation
of `handleFormSubmission` ever reaches the `catch` branch's failure
notification, and every invocation that passes the guard and validation
ends in the success path. -/
theorem submitForm_always_succeeds :
    submitForm = .ok () ∧
    (∀ b v : Bool, handleFormSubmissionOutcome b v ≠ SubmissionOutcome.failure) ∧
    (∀ b v : Bool, b = false → v = true →
      handleFormSubmissionOutcome b v = SubmissionOutcome.success) := by
  refine ⟨rfl, ?_, ?_⟩
  · intro b v
    cases b <;> cases v <;> simp [handleFormSubmissionOutcome, submitForm]
  · intro b v hb hv
    subst hb
    subst hv
    rfl

/-- Witness for C9 at the idle, valid invocation. -/
theorem submitForm_always_succeeds_witness :
    handleFormSubmissionOutcome false true ≠ SubmissionOutcome.failure ∧
    handleFormSubmissionOutcome false true = SubmissionOutcome.success :=
  ⟨submitForm_always_succeeds.2.1 false true,
   submitForm_always_succeeds.2.2 false true rfl rfl⟩

/-- Claim C10: the parallax default speed `0.1` is applied not only when
`data-speed` is absent but whenever the attribute parses to `0` or to
`NaN` (e.g. the string `"0"` or a non-numeric string), because
`parseFloat(...) || 0.1` replaces every falsy parse result; a nonzero
parse is used as is. -/
theorem parallax_speed_falsy_default (s : String) (q : ℚ)
    (hparse : parseFloat s = some q) (hq : q ≠ 0) :
    effSpeed (some s) = q ∧
    effSpeed none = 1/10 ∧
    effSpeed (some "0") = 1/10 ∧
    effSpeed (some "flow") = 1/10 ∧
    (∀ s2 : String, parseFloat s2 = none → effSpeed (some s2) = 1/10) ∧
    (∀ s2 : String, parseFloat s2 = some 0 → effSpeed (some s2) = 1/10) ∧
    (updateParallaxElem 40 ⟨some "0", none⟩).transform =
      some (40 * (1/10), 40 * (1/10)) := by
  refine ⟨by simp [effSpeed, hparse, hq], rfl, rfl, rfl, ?_, ?_, rfl⟩
  · intro s2 h
    simp [effSpeed, h]
  · intro s2 h
    simp [effSpeed, h]

/-- Witness for C10: the attribute string `"2"` parses to the nonzero
speed `2`, which is used verbatim. -/
theorem parallax_speed_falsy_default_witness :
    parseFloat "2" = some 2 ∧ (2 : ℚ) ≠ 0 ∧ effSpeed (some "2") = 2 :=
  ⟨rfl, by decide, (parallax_speed_falsy_default "2" 2 rfl (by decide)).1⟩

end Portfolio
